import Mathlib

/-!
Shallow embedding of the Hireability Scoring Engine
(`src/services/scoringEngine.ts` of mahesh-kota/AI-Hiring-Intelligence),
together with the data model of `src/types.ts`.

Modelling conventions:
* Timestamps (`pushed_at`, `created_at`, the captured `now`) are modelled by
  their epoch-millisecond values as integers; the TypeScript code converts its
  ISO-8601 strings to exactly these values via `new Date(s).getTime()`.
  A malformed timestamp is a caller contract violation and is outside the
  embedded domain.
* JavaScript numbers are modelled exactly: integer counts as `ℕ`,
  ratio/score intermediates as `ℚ`, and the two scores built on `Math.log10`
  as `ℝ` with `Real.logb 10`.  `Math.floor` on a quotient is `Int.floor` of
  the exact rational quotient, and `Math.round x` is `round x = ⌊x + 1/2⌋`,
  which matches JavaScript on halves (rounding towards +∞).
* `ninetyDaysAgo` (built in the source with `setDate(now.getDate() - 90)`)
  is modelled as `now - 90 * 86400000` milliseconds, i.e. exactly ninety
  24-hour days before the captured `now`.
* A repository's absent `description` is `Option.none`; an absent primary
  language is the empty string, which is exactly what the source's
  `.filter(Boolean)` discards.
* The source samples `new Date()` once into `now` and threads it through; the
  embedding takes that captured value as an explicit parameter `now`.
-/

/-- Activity classification from `src/types.ts` (`enum ActivityLevel`). -/
inductive ActivityLevel where
  | HIGHLY_ACTIVE
  | MODERATELY_ACTIVE
  | INACTIVE
deriving DecidableEq

/-- Profile input record (`src/types.ts`, `GitHubProfile`).  Display-only
fields (avatar, bio, location, blog, html_url, name, public_repos, following)
do not participate in scoring and are omitted from the embedding. -/
structure GitHubProfile where
  login : String
  followers : ℕ
  created_at : Int
deriving DecidableEq

/-- Repository input record (`src/types.ts`, `GitHubRepo`).  The display-only
fields `html_url` and `updated_at` are omitted. -/
structure GitHubRepo where
  name : String
  description : Option String
  stargazers_count : ℕ
  forks_count : ℕ
  language : String
  pushed_at : Int
  size : ℕ
  fork : Bool
  has_issues : Bool
  has_projects : Bool
  has_pages : Bool
deriving DecidableEq

/-- Output record (`src/types.ts`, `ScoringMetrics`).  Scores are the rounded
integers the source exposes; `lastCommitDate` is `none` for the source's
string sentinel `'N/A'` and `some t` for the ISO rendering of timestamp `t`. -/
structure ScoringMetrics where
  totalScore : Int
  repoCountScore : Int
  starImpact : Int
  activityScore : Int
  diversityScore : Int
  followerSignal : Int
  documentationScore : Int
  originalityScore : Int
  activityLevel : ActivityLevel
  lastCommitDate : Option Int
  daysSinceLastActivity : Int
  recentActivityVelocity : ℕ

/-- Milliseconds in a day (`1000 * 60 * 60 * 24`). -/
def msPerDay : Int := 86400000

/-- Original (non-fork) repositories: `repos.filter(r => !r.fork)`. -/
def originalRepos (repos : List GitHubRepo) : List GitHubRepo :=
  repos.filter fun r => !r.fork

/-- Share of original repositories:
`repos.length > 0 ? originalRepos.length / repos.length : 0`. -/
def originalityRatio (repos : List GitHubRepo) : ℚ :=
  if 0 < repos.length then
    (originalRepos repos).length / (repos.length : ℚ)
  else 0

/-- Largest `pushed_at` across the whole list, i.e. the push time of
`sortedByPush[0]` after the source sorts by descending `getTime()`.
The value for `[]` is irrelevant: every use is guarded by
`repos.length > 0`. -/
def maxPushTime : List GitHubRepo → Int
  | [] => 0
  | r :: rs => rs.foldl (fun acc x => max acc x.pushed_at) r.pushed_at

/-- Day gap since the newest push:
`Math.floor((now - lastDate) / 86400000)`, with the sentinel `999` kept when
the repository list is empty. -/
def daysSinceLastActivity (now : Int) (repos : List GitHubRepo) : Int :=
  if 0 < repos.length then
    ⌊((now - maxPushTime repos : Int) : ℚ) / (msPerDay : ℚ)⌋
  else 999

/-- Count of repositories pushed in the trailing 90-day window:
`repos.filter(repo => new Date(repo.pushed_at) >= ninetyDaysAgo).length`,
kept at `0` when the list is empty. -/
def recentActivityVelocity (now : Int) (repos : List GitHubRepo) : ℕ :=
  if 0 < repos.length then
    (repos.filter fun r => now - 90 * msPerDay ≤ r.pushed_at).length
  else 0

/-- Tri-state activity classification (source lines 43-47). -/
def activityLevel (now : Int) (repos : List GitHubRepo) : ActivityLevel :=
  if daysSinceLastActivity now repos ≤ 7 ∧ 5 ≤ recentActivityVelocity now repos then
    ActivityLevel.HIGHLY_ACTIVE
  else if daysSinceLastActivity now repos ≤ 30 ∧ 1 ≤ recentActivityVelocity now repos then
    ActivityLevel.MODERATELY_ACTIVE
  else ActivityLevel.INACTIVE

/-- Recency decay factor:
`daysSinceLastActivity === 0 ? 1 : Math.max(0, 1 - daysSinceLastActivity / 90)`. -/
def recencyMultiplier (now : Int) (repos : List GitHubRepo) : ℚ :=
  if daysSinceLastActivity now repos = 0 then 1
  else max 0 (1 - (daysSinceLastActivity now repos : ℚ) / 90)

/-- Unrounded activity score (max 30):
`(Math.min(10, recentActivityVelocity) * 3) * recencyMultiplier`. -/
def activityScore (now : Int) (repos : List GitHubRepo) : ℚ :=
  min 10 (recentActivityVelocity now repos : ℚ) * 3 * recencyMultiplier now repos

/-- Unrounded originality score (max 20): `originalityRatio * 20`. -/
def originalityScore (repos : List GitHubRepo) : ℚ :=
  originalityRatio repos * 20

/-- Total stars over original repositories:
`originalRepos.reduce((sum, r) => sum + r.stargazers_count, 0)`. -/
def totalStars (repos : List GitHubRepo) : ℕ :=
  (originalRepos repos).foldl (fun sum r => sum + r.stargazers_count) 0

/-- Number of distinct non-empty primary languages over original
repositories: `new Set(originalRepos.map(r => r.language).filter(Boolean)).size`. -/
def languagesCount (repos : List GitHubRepo) : ℕ :=
  (((originalRepos repos).map fun r => r.language).filter fun s => s ≠ "").dedup.length

/-- Star bonus (max 5): `Math.min(5, (Math.log10(totalStars + 1) / 2) * 5)`. -/
noncomputable def starBonus (repos : List GitHubRepo) : ℝ :=
  min 5 (Real.logb 10 ((totalStars repos : ℝ) + 1) / 2 * 5)

/-- Language bonus (max 10): `Math.min(10, (languages.size / 4) * 10)`. -/
def languageBonus (repos : List GitHubRepo) : ℚ :=
  min 10 ((languagesCount repos : ℚ) / 4 * 10)

/-- Unrounded diversity score (max 15): `starBonus + languageBonus`. -/
noncomputable def diversityScore (repos : List GitHubRepo) : ℝ :=
  starBonus repos + (languageBonus repos : ℝ)

/-- Original repositories whose description is longer than 20 characters:
`originalRepos.filter(r => (r.description?.length || 0) > 20).length`. -/
def reposWithDesc (repos : List GitHubRepo) : ℕ :=
  ((originalRepos repos).filter fun r => 20 < (r.description.getD "").length).length

/-- Original repositories using at least one platform feature:
`originalRepos.filter(r => r.has_issues || r.has_pages || r.has_projects).length`. -/
def featureUsage (repos : List GitHubRepo) : ℕ :=
  ((originalRepos repos).filter fun r => r.has_issues || r.has_pages || r.has_projects).length

/-- Documentation ratio:
`(reposWithDesc + featureUsage) / (originalRepos.length * 2)`, `0` when there
are no original repositories. -/
def docRatio (repos : List GitHubRepo) : ℚ :=
  if 0 < (originalRepos repos).length then
    ((reposWithDesc repos : ℚ) + (featureUsage repos : ℚ)) / ((originalRepos repos).length * 2)
  else 0

/-- Unrounded documentation score (max 15): `docRatio * 15`. -/
def documentationScore (repos : List GitHubRepo) : ℚ :=
  docRatio repos * 15

/-- Account age in years:
`(now - created_at) / (1000 * 60 * 60 * 24 * 365)`. -/
def accountAgeYears (now : Int) (profile : GitHubProfile) : ℚ :=
  ((now - profile.created_at : Int) : ℚ) / ((msPerDay : ℚ) * 365)

/-- Age component of maturity: `Math.min(5, accountAgeYears)`. -/
def ageScore (now : Int) (profile : GitHubProfile) : ℚ :=
  min 5 (accountAgeYears now profile)

/-- Follower component of maturity: `Math.min(5, (followers / 100) * 5)`. -/
def followerScore (profile : GitHubProfile) : ℚ :=
  min 5 ((profile.followers : ℚ) / 100 * 5)

/-- Unrounded maturity score (max 10): `ageScore + followerScore`. -/
def followerSignal (now : Int) (profile : GitHubProfile) : ℚ :=
  ageScore now profile + followerScore profile

/-- Total byte size of original repositories:
`originalRepos.reduce((sum, r) => sum + r.size, 0)`. -/
def totalSize (repos : List GitHubRepo) : ℕ :=
  (originalRepos repos).foldl (fun sum r => sum + r.size) 0

/-- Average byte size over original repositories, `0` when there are none. -/
def avgSize (repos : List GitHubRepo) : ℚ :=
  if 0 < (originalRepos repos).length then
    (totalSize repos : ℚ) / ((originalRepos repos).length : ℚ)
  else 0

/-- Unrounded complexity score (max 10):
`Math.min(10, (Math.log10(avgSize + 1) / 5) * 10)`. -/
noncomputable def complexityScore (repos : List GitHubRepo) : ℝ :=
  min 10 (Real.logb 10 ((avgSize repos : ℝ) + 1) / 5 * 10)

/-- Sum of the six unrounded sub-scores, the argument of the final
`Math.round` (source lines 83-90). -/
noncomputable def totalScoreValue (now : Int) (profile : GitHubProfile)
    (repos : List GitHubRepo) : ℝ :=
  (activityScore now repos : ℝ) + (originalityScore repos : ℝ) +
    diversityScore repos + (documentationScore repos : ℝ) +
    (followerSignal now profile : ℝ) + complexityScore repos

/-- The scoring engine (`calculateHireabilityScore`, source lines 15-106),
with the captured `now` made explicit. -/
noncomputable def calculateHireabilityScore (now : Int) (profile : GitHubProfile)
    (repos : List GitHubRepo) : ScoringMetrics :=
  { totalScore := round (totalScoreValue now profile repos)
    repoCountScore := round (originalityScore repos)
    starImpact := round (starBonus repos)
    activityScore := round (activityScore now repos)
    diversityScore := round (diversityScore repos)
    followerSignal := round (followerSignal now profile)
    documentationScore := round (documentationScore repos)
    originalityScore := round (originalityScore repos)
    activityLevel := activityLevel now repos
    lastCommitDate := if 0 < repos.length then some (maxPushTime repos) else none
    daysSinceLastActivity := daysSinceLastActivity now repos
    recentActivityVelocity := recentActivityVelocity now repos }

/-! ### Helper lemmas -/

/-- The running fold of `max` over push timestamps dominates its seed. -/
lemma le_foldlMax (l : List GitHubRepo) (a : Int) :
    a ≤ l.foldl (fun acc x => max acc x.pushed_at) a := by
  induction l generalizing a with
  | nil => exact le_refl a
  | cons r rs ih =>
    exact le_trans (le_max_left a r.pushed_at) (ih (max a r.pushed_at))

/-- The running fold of `max` dominates every list element's timestamp. -/
lemma mem_le_foldlMax (l : List GitHubRepo) (a : Int) :
    ∀ r ∈ l, r.pushed_at ≤ l.foldl (fun acc x => max acc x.pushed_at) a := by
  induction l generalizing a with
  | nil => intro r hr; cases hr
  | cons x xs ih =>
    intro r hr
    rcases List.mem_cons.mp hr with h | h
    · subst h
      exact le_trans (le_max_right a r.pushed_at) (le_foldlMax xs (max a r.pushed_at))
    · exact ih (max a x.pushed_at) r h

/-- The fold of `max` stays below any common upper bound. -/
lemma foldlMax_le (l : List GitHubRepo) (a c : Int) (ha : a ≤ c)
    (h : ∀ r ∈ l, r.pushed_at ≤ c) :
    l.foldl (fun acc x => max acc x.pushed_at) a ≤ c := by
  induction l generalizing a with
  | nil => exact ha
  | cons x xs ih =>
    exact ih (max a x.pushed_at)
      (max_le ha (h x (List.mem_cons_self x xs)))
      (fun r hr => h r (List.mem_cons_of_mem x hr))

/-- The fold of `max` is either the seed or one of the timestamps. -/
lemma foldlMax_mem (l : List GitHubRepo) (a : Int) :
    l.foldl (fun acc x => max acc x.pushed_at) a = a ∨
      ∃ r ∈ l, l.foldl (fun acc x => max acc x.pushed_at) a = r.pushed_at := by
  induction l generalizing a with
  | nil => exact Or.inl rfl
  | cons x xs ih =>
    rcases ih (max a x.pushed_at) with h | ⟨r, hr, hfold⟩
    · rcases max_choice a x.pushed_at with hm | hm
      · exact Or.inl (by simpa [List.foldl_cons, hm] using h)
      · refine Or.inr ⟨x, List.mem_cons_self x xs, ?_⟩
        simpa [List.foldl_cons, hm] using h
    · exact Or.inr ⟨r, List.mem_cons_of_mem x hr, hfold⟩

/-- `maxPushTime` of a non-empty list is one of the push timestamps. -/
lemma maxPushTime_mem (repos : List GitHubRepo) (h : repos ≠ []) :
    maxPushTime repos ∈ repos.map fun r => r.pushed_at := by
  cases repos with
  | nil => exact absurd rfl h
  | cons r rs =>
    rcases foldlMax_mem rs r.pushed_at with hm | ⟨x, hx, hfold⟩
    · exact List.mem_map.mpr ⟨r, List.mem_cons_self r rs, hm.symm ▸ rfl⟩
    · exact List.mem_map.mpr ⟨x, List.mem_cons_of_mem r hx, hfold.symm ▸ rfl⟩

/-- Every repository's push timestamp is at most `maxPushTime`. -/
lemma le_maxPushTime (repos : List GitHubRepo) :
    ∀ r ∈ repos, r.pushed_at ≤ maxPushTime repos := by
  cases repos with
  | nil => intro r hr; cases hr
  | cons x xs =>
    intro r hr
    rcases List.mem_cons.mp hr with h | h
    · subst h; exact le_foldlMax xs r.pushed_at
    · exact mem_le_foldlMax xs x.pushed_at r h

/-- `maxPushTime` respects a common upper bound on a non-empty list. -/
lemma maxPushTime_le (repos : List GitHubRepo) (c : Int) (h : repos ≠ [])
    (hall : ∀ r ∈ repos, r.pushed_at ≤ c) : maxPushTime repos ≤ c := by
  cases repos with
  | nil => exact absurd rfl h
  | cons x xs =>
    exact foldlMax_le xs x.pushed_at c (hall x (List.mem_cons_self x xs))
      (fun r hr => hall r (List.mem_cons_of_mem x hr))

/-- Rounding preserves non-negativity. -/
lemma round_nonneg_of {α : Type*} [LinearOrderedField α] [FloorRing α]
    {x : α} (h : 0 ≤ x) : 0 ≤ round x := by
  rw [round_eq]
  exact Int.floor_nonneg.mpr (by linarith)

/-- Rounding a value at most `n` gives an integer at most `n`. -/
lemma round_le_int {α : Type*} [LinearOrderedField α] [FloorRing α]
    {x : α} {n : ℤ} (h : x ≤ (n : α)) : round x ≤ n := by
  rw [round_eq]
  have hlt : ⌊x + 1 / 2⌋ < n + 1 := by
    apply Int.floor_lt.mpr
    push_cast
    linarith
  omega

/-- When every push timestamp is at most `now`, the day gap is non-negative
(including the `999` sentinel for the empty list). -/
lemma daysSince_nonneg (now : Int) (repos : List GitHubRepo)
    (h : ∀ r ∈ repos, r.pushed_at ≤ now) : 0 ≤ daysSinceLastActivity now repos := by
  unfold daysSinceLastActivity
  split
  · next hlen =>
    have hne : repos ≠ [] := List.length_pos.mp hlen
    have hmax : maxPushTime repos ≤ now := maxPushTime_le repos now hne h
    apply Int.floor_nonneg.mpr
    apply div_nonneg
    · exact_mod_cast Int.sub_nonneg.mpr hmax
    · norm_num [msPerDay]
  · norm_num

/-- The recency multiplier is never negative. -/
lemma recencyMultiplier_nonneg (now : Int) (repos : List GitHubRepo) :
    0 ≤ recencyMultiplier now repos := by
  unfold recencyMultiplier
  split
  · norm_num
  · exact le_max_left 0 _

/-- With a non-negative day gap the recency multiplier is at most one. -/
lemma recencyMultiplier_le_one (now : Int) (repos : List GitHubRepo)
    (h : 0 ≤ daysSinceLastActivity now repos) : recencyMultiplier now repos ≤ 1 := by
  unfold recencyMultiplier
  split
  · exact le_refl 1
  · have hq : (0 : ℚ) ≤ (daysSinceLastActivity now repos : ℚ) := by exact_mod_cast h
    have : (1 : ℚ) - (daysSinceLastActivity now repos : ℚ) / 90 ≤ 1 := by linarith
    exact max_le (by norm_num) this

/-- The unrounded activity score is never negative. -/
lemma activityScore_nonneg (now : Int) (repos : List GitHubRepo) :
    0 ≤ activityScore now repos := by
  unfold activityScore
  have h1 : (0 : ℚ) ≤ min 10 (recentActivityVelocity now repos : ℚ) :=
    le_min (by norm_num) (by positivity)
  exact mul_nonneg (mul_nonneg h1 (by norm_num)) (recencyMultiplier_nonneg now repos)

/-- When every push timestamp is at most `now`, the unrounded activity score
is at most 30. -/
lemma activityScore_le (now : Int) (repos : List GitHubRepo)
    (h : ∀ r ∈ repos, r.pushed_at ≤ now) : activityScore now repos ≤ 30 := by
  unfold activityScore
  have h1 : min 10 (recentActivityVelocity now repos : ℚ) ≤ 10 := min_le_left _ _
  have h0 : (0 : ℚ) ≤ min 10 (recentActivityVelocity now repos : ℚ) :=
    le_min (by norm_num) (by positivity)
  have h2 : recencyMultiplier now repos ≤ 1 :=
    recencyMultiplier_le_one now repos (daysSince_nonneg now repos h)
  have h3 : 0 ≤ recencyMultiplier now repos := recencyMultiplier_nonneg now repos
  nlinarith

/-- The originality ratio lies in `[0, 1]`. -/
lemma originalityRatio_bounds (repos : List GitHubRepo) :
    0 ≤ originalityRatio repos ∧ originalityRatio repos ≤ 1 := by
  unfold originalityRatio
  split
  · next hlen =>
    constructor
    · positivity
    · rw [div_le_one (by exact_mod_cast hlen)]
      exact_mod_cast List.length_filter_le _ repos
  · norm_num

/-- The star bonus lies in `[0, 5]`. -/
lemma starBonus_bounds (repos : List GitHubRepo) :
    0 ≤ starBonus repos ∧ starBonus repos ≤ 5 := by
  unfold starBonus
  constructor
  · apply le_min (by norm_num)
    have hstars : (0 : ℝ) ≤ (totalStars repos : ℝ) := by positivity
    have hlog : 0 ≤ Real.logb 10 ((totalStars repos : ℝ) + 1) :=
      Real.logb_nonneg (by norm_num) (by linarith)
    positivity
  · exact min_le_left _ _

/-- The language bonus lies in `[0, 10]`. -/
lemma languageBonus_bounds (repos : List GitHubRepo) :
    0 ≤ languageBonus repos ∧ languageBonus repos ≤ 10 := by
  unfold languageBonus
  exact ⟨le_min (by norm_num) (by positivity), min_le_left _ _⟩

/-- The unrounded diversity score lies in `[0, 15]`. -/
lemma diversityScore_bounds (repos : List GitHubRepo) :
    0 ≤ diversityScore repos ∧ diversityScore repos ≤ 15 := by
  obtain ⟨hs0, hs5⟩ := starBonus_bounds repos
  obtain ⟨hl0, hl10⟩ := languageBonus_bounds repos
  have hl0r : (0 : ℝ) ≤ (languageBonus repos : ℝ) := by exact_mod_cast hl0
  have hl10r : (languageBonus repos : ℝ) ≤ 10 := by exact_mod_cast hl10
  unfold diversityScore
  constructor <;> linarith

/-- The documentation ratio lies in `[0, 1]`. -/
lemma docRatio_bounds (repos : List GitHubRepo) :
    0 ≤ docRatio repos ∧ docRatio repos ≤ 1 := by
  unfold docRatio
  split
  · next hlen =>
    constructor
    · positivity
    · rw [div_le_one (by exact_mod_cast Nat.mul_pos hlen (by norm_num))]
      have h1 : reposWithDesc repos ≤ (originalRepos repos).length :=
        List.length_filter_le _ _
      have h2 : featureUsage repos ≤ (originalRepos repos).length :=
        List.length_filter_le _ _
      have h1q : (reposWithDesc repos : ℚ) ≤ ((originalRepos repos).length : ℚ) := by
        exact_mod_cast h1
      have h2q : (featureUsage repos : ℚ) ≤ ((originalRepos repos).length : ℚ) := by
        exact_mod_cast h2
      linarith
  · norm_num

/-- The unrounded documentation score lies in `[0, 15]`. -/
lemma documentationScore_bounds (repos : List GitHubRepo) :
    0 ≤ documentationScore repos ∧ documentationScore repos ≤ 15 := by
  obtain ⟨h0, h1⟩ := docRatio_bounds repos
  unfold documentationScore
  constructor <;> nlinarith

/-- When the account was created no later than `now`, the unrounded maturity
score lies in `[0, 10]`. -/
lemma followerSignal_bounds (now : Int) (profile : GitHubProfile)
    (h : profile.created_at ≤ now) :
    0 ≤ followerSignal now profile ∧ followerSignal now profile ≤ 10 := by
  have hage0 : 0 ≤ ageScore now profile := by
    unfold ageScore accountAgeYears
    apply le_min (by norm_num)
    apply div_nonneg
    · exact_mod_cast Int.sub_nonneg.mpr h
    · norm_num [msPerDay]
  have hage5 : ageScore now profile ≤ 5 := min_le_left _ _
  have hfol0 : 0 ≤ followerScore profile := by
    unfold followerScore
    exact le_min (by norm_num) (by positivity)
  have hfol5 : followerScore profile ≤ 5 := min_le_left _ _
  unfold followerSignal
  constructor <;> linarith

/-- The unrounded complexity score lies in `[0, 10]`. -/
lemma complexityScore_bounds (repos : List GitHubRepo) :
    0 ≤ complexityScore repos ∧ complexityScore repos ≤ 10 := by
  have havg : 0 ≤ avgSize repos := by
    unfold avgSize
    split
    · positivity
    · norm_num
  have havgr : (0 : ℝ) ≤ (avgSize repos : ℝ) := by exact_mod_cast havg
  unfold complexityScore
  constructor
  · apply le_min (by norm_num)
    have hlog : 0 ≤ Real.logb 10 ((avgSize repos : ℝ) + 1) :=
      Real.logb_nonneg (by norm_num) (by linarith)
    positivity
  · exact min_le_left _ _

/-- The unrounded originality score lies in `[0, 20]`. -/
lemma originalityScore_bounds (repos : List GitHubRepo) :
    0 ≤ originalityScore repos ∧ originalityScore repos ≤ 20 := by
  obtain ⟨h0, h1⟩ := originalityRatio_bounds repos
  unfold originalityScore
  constructor <;> nlinarith

/-- Profile created one 365-day year after the captured `now = 0`:
a well-typed input whose creation timestamp lies in the future. -/
def futureProfile : GitHubProfile :=
  { login := "u", followers := 0, created_at := 31536000000 }

/-- Profile created exactly at the captured `now = 0`. -/
def epochProfile : GitHubProfile :=
  { login := "u", followers := 0, created_at := 0 }

/-- C1 counterexample: with a creation timestamp one year after the captured
`now`, the maturity sub-score returned by `calculateHireabilityScore` is
`-1`, strictly below zero, refuting the claimed lower bound for inputs whose
creation timestamp lies after `now`. -/
theorem c1_counterexample :
    (calculateHireabilityScore 0 futureProfile []).followerSignal < 0 := by
  have hval : followerSignal 0 futureProfile = -1 := by
    unfold followerSignal ageScore followerScore accountAgeYears futureProfile msPerDay
    norm_num
  show round (followerSignal 0 futureProfile) < 0
  rw [hval]
  have h1 : round ((-1 : ℚ)) = round (((-1 : ℤ) : ℚ)) := by norm_num
  rw [h1, round_intCast]
  norm_num

/-- C1 (amended): when every repository's push timestamp and the profile's
creation timestamp are at most the captured `now`, each of the six sub-scores
of `calculateHireabilityScore` lies between 0 and its documented maximum
weight (30, 20, 15, 15, 10, 10); the first five are read off the returned
record, and complexity — which the record does not expose as a field — is
stated on the unrounded value that enters the total. -/
theorem c1_subscores_bounded (now : Int) (profile : GitHubProfile)
    (repos : List GitHubRepo)
    (hpush : ∀ r ∈ repos, r.pushed_at ≤ now)
    (hcreated : profile.created_at ≤ now) :
    (0 ≤ (calculateHireabilityScore now profile repos).activityScore ∧
      (calculateHireabilityScore now profile repos).activityScore ≤ 30) ∧
    (0 ≤ (calculateHireabilityScore now profile repos).originalityScore ∧
      (calculateHireabilityScore now profile repos).originalityScore ≤ 20) ∧
    (0 ≤ (calculateHireabilityScore now profile repos).diversityScore ∧
      (calculateHireabilityScore now profile repos).diversityScore ≤ 15) ∧
    (0 ≤ (calculateHireabilityScore now profile repos).documentationScore ∧
      (calculateHireabilityScore now profile repos).documentationScore ≤ 15) ∧
    (0 ≤ (calculateHireabilityScore now profile repos).followerSignal ∧
      (calculateHireabilityScore now profile repos).followerSignal ≤ 10) ∧
    (0 ≤ complexityScore repos ∧ complexityScore repos ≤ 10) := by
  have hA0 := activityScore_nonneg now repos
  have hA30 := activityScore_le now repos hpush
  have hO := originalityScore_bounds repos
  have hD := diversityScore_bounds repos
  have hDoc := documentationScore_bounds repos
  have hF := followerSignal_bounds now profile hcreated
  have hC := complexityScore_bounds repos
  refine ⟨⟨?_, ?_⟩, ⟨?_, ?_⟩, ⟨?_, ?_⟩, ⟨?_, ?_⟩, ⟨?_, ?_⟩, hC⟩
  · exact round_nonneg_of hA0
  · exact round_le_int (by exact_mod_cast hA30)
  · exact round_nonneg_of hO.1
  · exact round_le_int (by exact_mod_cast hO.2)
  · exact round_nonneg_of hD.1
  · exact round_le_int (by exact_mod_cast hD.2)
  · exact round_nonneg_of hDoc.1
  · exact round_le_int (by exact_mod_cast hDoc.2)
  · exact round_nonneg_of hF.1
  · exact round_le_int (by exact_mod_cast hF.2)

/-- C1 witness: the amended bounds instantiated at `now = 0`, a profile
created at the epoch, and the empty repository list. -/
theorem c1_subscores_bounded_witness :
    (∀ r ∈ ([] : List GitHubRepo), r.pushed_at ≤ (0 : Int)) ∧
    epochProfile.created_at ≤ 0 ∧
    ((0 ≤ (calculateHireabilityScore 0 epochProfile []).activityScore ∧
      (calculateHireabilityScore 0 epochProfile []).activityScore ≤ 30) ∧
    (0 ≤ (calculateHireabilityScore 0 epochProfile []).originalityScore ∧
      (calculateHireabilityScore 0 epochProfile []).originalityScore ≤ 20) ∧
    (0 ≤ (calculateHireabilityScore 0 epochProfile []).diversityScore ∧
      (calculateHireabilityScore 0 epochProfile []).diversityScore ≤ 15) ∧
    (0 ≤ (calculateHireabilityScore 0 epochProfile []).documentationScore ∧
      (calculateHireabilityScore 0 epochProfile []).documentationScore ≤ 15) ∧
    (0 ≤ (calculateHireabilityScore 0 epochProfile []).followerSignal ∧
      (calculateHireabilityScore 0 epochProfile []).followerSignal ≤ 10) ∧
    (0 ≤ complexityScore [] ∧ complexityScore [] ≤ 10)) :=
  ⟨by simp, by decide,
    c1_subscores_bounded 0 epochProfile [] (by simp) (by decide)⟩

/-- The unrounded activity score of an empty repository list is zero. -/
lemma activityScore_nil (now : Int) : activityScore now [] = 0 := by
  unfold activityScore recentActivityVelocity
  norm_num

/-- The unrounded originality score of an empty repository list is zero. -/
lemma originalityScore_nil : originalityScore [] = 0 := by
  unfold originalityScore originalityRatio
  norm_num

/-- The unrounded diversity score of an empty repository list is zero. -/
lemma diversityScore_nil : diversityScore [] = 0 := by
  unfold diversityScore starBonus languageBonus totalStars languagesCount originalRepos
  simp [Real.logb_one]

/-- The unrounded documentation score of an empty repository list is zero. -/
lemma documentationScore_nil : documentationScore [] = 0 := by
  unfold documentationScore docRatio originalRepos
  norm_num

/-- The unrounded complexity score of an empty repository list is zero. -/
lemma complexityScore_nil : complexityScore [] = 0 := by
  unfold complexityScore avgSize originalRepos
  simp [Real.logb_one]

/-- C2: on an empty repository list the engine returns, with no division by
zero, the rounded sub-scores 0 for activity, originality, diversity and
documentation, an unrounded complexity contribution of 0 (the record does not
expose complexity as a field), the sentinel day gap 999, activity level
INACTIVE, recent velocity 0, and the no-data sentinel (`none`, the source's
string `'N/A'`) for the last-push timestamp field. -/
theorem c2_empty_repo_defaults (now : Int) (profile : GitHubProfile) :
    (calculateHireabilityScore now profile []).activityScore = 0 ∧
    (calculateHireabilityScore now profile []).originalityScore = 0 ∧
    (calculateHireabilityScore now profile []).diversityScore = 0 ∧
    (calculateHireabilityScore now profile []).documentationScore = 0 ∧
    complexityScore [] = 0 ∧
    (calculateHireabilityScore now profile []).daysSinceLastActivity = 999 ∧
    (calculateHireabilityScore now profile []).activityLevel = ActivityLevel.INACTIVE ∧
    (calculateHireabilityScore now profile []).recentActivityVelocity = 0 ∧
    (calculateHireabilityScore now profile []).lastCommitDate = none := by
  refine ⟨?_, ?_, ?_, ?_, complexityScore_nil, ?_, ?_, ?_, ?_⟩
  · show round (activityScore now []) = 0
    rw [activityScore_nil, round_zero]
  · show round (originalityScore []) = 0
    rw [originalityScore_nil, round_zero]
  · show round (diversityScore []) = 0
    rw [diversityScore_nil, round_zero]
  · show round (documentationScore []) = 0
    rw [documentationScore_nil, round_zero]
  · show daysSinceLastActivity now [] = 999
    unfold daysSinceLastActivity
    norm_num
  · show activityLevel now [] = ActivityLevel.INACTIVE
    unfold activityLevel daysSinceLastActivity
    norm_num
  · show recentActivityVelocity now [] = 0
    unfold recentActivityVelocity
    norm_num
  · show (if 0 < ([] : List GitHubRepo).length then some (maxPushTime []) else none) = none
    norm_num

/-- The maturity score of `futureProfile` at `now = 0` is `-1`. -/
lemma followerSignal_future : followerSignal 0 futureProfile = -1 := by
  unfold followerSignal ageScore followerScore accountAgeYears futureProfile msPerDay
  norm_num

/-- A single original repository pushed at the epoch, with a long description,
no stars, no platform features, size 0, language Go. -/
def docRepo : GitHubRepo :=
  { name := "r", description := some "aaaaaaaaaaaaaaaaaaaaaaaaa",
    stargazers_count := 0, forks_count := 0, language := "Go",
    pushed_at := 0, size := 0, fork := false,
    has_issues := false, has_projects := false, has_pages := false }

/-- Day gap of `[docRepo]` at `now = 0` is zero. -/
lemma daysSince_docRepo : daysSinceLastActivity 0 [docRepo] = 0 := by
  unfold daysSinceLastActivity maxPushTime docRepo
  norm_num

/-- Recent velocity of `[docRepo]` at `now = 0` is one. -/
lemma velocity_docRepo : recentActivityVelocity 0 [docRepo] = 1 := by
  unfold recentActivityVelocity msPerDay
  decide

/-- Unrounded activity score of `[docRepo]` at `now = 0` is three. -/
lemma activityScore_docRepo : activityScore 0 [docRepo] = 3 := by
  unfold activityScore recencyMultiplier
  rw [daysSince_docRepo, velocity_docRepo]
  norm_num

/-- Unrounded originality score of `[docRepo]` is twenty. -/
lemma originalityScore_docRepo : originalityScore [docRepo] = 20 := by
  unfold originalityScore originalityRatio originalRepos docRepo
  norm_num

/-- Star bonus of `[docRepo]` is zero (no stars). -/
lemma starBonus_docRepo : starBonus [docRepo] = 0 := by
  unfold starBonus totalStars originalRepos docRepo
  simp [Real.logb_one]

/-- Language bonus of `[docRepo]` is `5/2` (one distinct language). -/
lemma languageBonus_docRepo : languageBonus [docRepo] = 5 / 2 := by
  have h : languagesCount [docRepo] = 1 := by decide
  unfold languageBonus
  rw [h]
  norm_num

/-- Unrounded diversity score of `[docRepo]` is `5/2`. -/
lemma diversityScore_docRepo : diversityScore [docRepo] = 5 / 2 := by
  unfold diversityScore
  rw [starBonus_docRepo, languageBonus_docRepo]
  norm_num

/-- Unrounded documentation score of `[docRepo]` is `15/2`: the description
has 25 characters, no platform feature is set. -/
lemma documentationScore_docRepo : documentationScore [docRepo] = 15 / 2 := by
  have h1 : reposWithDesc [docRepo] = 1 := by decide
  have h2 : featureUsage [docRepo] = 0 := by decide
  have h3 : (originalRepos [docRepo]).length = 1 := by decide
  unfold documentationScore docRatio
  rw [h1, h2, h3]
  norm_num

/-- Unrounded maturity score of `epochProfile` at `now = 0` is zero. -/
lemma followerSignal_epoch : followerSignal 0 epochProfile = 0 := by
  unfold followerSignal ageScore followerScore accountAgeYears epochProfile msPerDay
  norm_num

/-- Unrounded complexity score of `[docRepo]` is zero (size 0). -/
lemma complexityScore_docRepo : complexityScore [docRepo] = 0 := by
  unfold complexityScore avgSize totalSize originalRepos docRepo
  simp [Real.logb_one]

/-- Sum of the six unrounded sub-scores at `now = 0`, `epochProfile`,
`[docRepo]`: `3 + 20 + 5/2 + 15/2 + 0 + 0 = 33`. -/
lemma totalScoreValue_docRepo : totalScoreValue 0 epochProfile [docRepo] = 33 := by
  unfold totalScoreValue
  rw [activityScore_docRepo, originalityScore_docRepo, diversityScore_docRepo,
    documentationScore_docRepo, followerSignal_epoch, complexityScore_docRepo]
  norm_num

/-- C3 counterexample: with a creation timestamp one year after the captured
`now`, the returned total score is `-1`, refuting the claimed non-negativity
of the total for every input. -/
theorem c3_counterexample :
    (calculateHireabilityScore 0 futureProfile []).totalScore < 0 := by
  have h : totalScoreValue 0 futureProfile [] = -1 := by
    unfold totalScoreValue
    rw [activityScore_nil, originalityScore_nil, diversityScore_nil,
      documentationScore_nil, complexityScore_nil, followerSignal_future]
    norm_num
  show round (totalScoreValue 0 futureProfile []) < 0
  rw [h]
  norm_num [round_eq]

/-- C3 (amended): the `totalScore` field always equals the nearest-integer
rounding of the sum of the six unrounded sub-score values, and the total is
non-negative whenever the profile's creation timestamp is at most the
captured `now`; moreover, at a concrete input the total differs from the sum
of the individually rounded sub-scores, so it is genuinely computed from the
unrounded values. -/
theorem c3_total_rounded_sum (now : Int) (profile : GitHubProfile)
    (repos : List GitHubRepo) (hcreated : profile.created_at ≤ now) :
    ((calculateHireabilityScore now profile repos).totalScore =
      round ((activityScore now repos : ℝ) + (originalityScore repos : ℝ) +
        diversityScore repos + (documentationScore repos : ℝ) +
        (followerSignal now profile : ℝ) + complexityScore repos)) ∧
    0 ≤ (calculateHireabilityScore now profile repos).totalScore ∧
    (calculateHireabilityScore 0 epochProfile [docRepo]).totalScore ≠
      (calculateHireabilityScore 0 epochProfile [docRepo]).activityScore +
      (calculateHireabilityScore 0 epochProfile [docRepo]).originalityScore +
      (calculateHireabilityScore 0 epochProfile [docRepo]).diversityScore +
      (calculateHireabilityScore 0 epochProfile [docRepo]).documentationScore +
      (calculateHireabilityScore 0 epochProfile [docRepo]).followerSignal +
      round (complexityScore [docRepo]) := by
  refine ⟨rfl, ?_, ?_⟩
  · show 0 ≤ round (totalScoreValue now profile repos)
    apply round_nonneg_of
    unfold totalScoreValue
    have hA : (0 : ℝ) ≤ (activityScore now repos : ℝ) := by
      exact_mod_cast activityScore_nonneg now repos
    have hO : (0 : ℝ) ≤ (originalityScore repos : ℝ) := by
      exact_mod_cast (originalityScore_bounds repos).1
    have hD := (diversityScore_bounds repos).1
    have hDoc : (0 : ℝ) ≤ (documentationScore repos : ℝ) := by
      exact_mod_cast (documentationScore_bounds repos).1
    have hF : (0 : ℝ) ≤ (followerSignal now profile : ℝ) := by
      exact_mod_cast (followerSignal_bounds now profile hcreated).1
    have hC := (complexityScore_bounds repos).1
    linarith
  · have hL : (calculateHireabilityScore 0 epochProfile [docRepo]).totalScore = 33 := by
      show round (totalScoreValue 0 epochProfile [docRepo]) = 33
      rw [totalScoreValue_docRepo]
      norm_num [round_eq]
    have h1 : (calculateHireabilityScore 0 epochProfile [docRepo]).activityScore = 3 := by
      show round (activityScore 0 [docRepo]) = 3
      rw [activityScore_docRepo]
      norm_num [round_eq]
    have h2 : (calculateHireabilityScore 0 epochProfile [docRepo]).originalityScore = 20 := by
      show round (originalityScore [docRepo]) = 20
      rw [originalityScore_docRepo]
      norm_num [round_eq]
    have h3 : (calculateHireabilityScore 0 epochProfile [docRepo]).diversityScore = 3 := by
      show round (diversityScore [docRepo]) = 3
      rw [diversityScore_docRepo]
      norm_num [round_eq]
    have h4 : (calculateHireabilityScore 0 epochProfile [docRepo]).documentationScore = 8 := by
      show round (documentationScore [docRepo]) = 8
      rw [documentationScore_docRepo]
      norm_num [round_eq]
    have h5 : (calculateHireabilityScore 0 epochProfile [docRepo]).followerSignal = 0 := by
      show round (followerSignal 0 epochProfile) = 0
      rw [followerSignal_epoch, round_zero]
    have h6 : round (complexityScore [docRepo]) = 0 := by
      rw [complexityScore_docRepo, round_zero]
    rw [hL, h1, h2, h3, h4, h5, h6]
    norm_num

/-- C3 witness: the amended statement instantiated at `now = 0`, the
epoch-created profile and the empty repository list. -/
theorem c3_total_rounded_sum_witness :
    epochProfile.created_at ≤ 0 ∧
    (((calculateHireabilityScore 0 epochProfile []).totalScore =
      round ((activityScore 0 ([] : List GitHubRepo) : ℝ) +
        (originalityScore [] : ℝ) + diversityScore [] +
        (documentationScore [] : ℝ) + (followerSignal 0 epochProfile : ℝ) +
        complexityScore [])) ∧
    0 ≤ (calculateHireabilityScore 0 epochProfile []).totalScore ∧
    (calculateHireabilityScore 0 epochProfile [docRepo]).totalScore ≠
      (calculateHireabilityScore 0 epochProfile [docRepo]).activityScore +
      (calculateHireabilityScore 0 epochProfile [docRepo]).originalityScore +
      (calculateHireabilityScore 0 epochProfile [docRepo]).diversityScore +
      (calculateHireabilityScore 0 epochProfile [docRepo]).documentationScore +
      (calculateHireabilityScore 0 epochProfile [docRepo]).followerSignal +
      round (complexityScore [docRepo])) :=
  ⟨by decide, c3_total_rounded_sum 0 epochProfile [] (by decide)⟩

/-- C4: for a non-empty repository list the unrounded activity score is
`min(10, velocity) * 3 * m`, where `m` is 1 when the day gap is exactly 0 and
otherwise `max(0, 1 - dayGap/90)`; a day gap of exactly 90 gives multiplier
0, never a negative one. -/
theorem c4_activity_formula (now : Int) (repos : List GitHubRepo)
    (_h : repos ≠ []) :
    activityScore now repos =
      min 10 (recentActivityVelocity now repos : ℚ) * 3 *
        (if daysSinceLastActivity now repos = 0 then 1
         else max 0 (1 - (daysSinceLastActivity now repos : ℚ) / 90)) ∧
    (daysSinceLastActivity now repos = 90 → recencyMultiplier now repos = 0) := by
  refine ⟨rfl, fun h90 => ?_⟩
  unfold recencyMultiplier
  rw [h90]
  norm_num

/-- A single original repository whose last push lies exactly 90 days before
the epoch. -/
def staleRepo : GitHubRepo :=
  { docRepo with pushed_at := -7776000000 }

/-- Day gap of `[staleRepo]` at `now = 0` is exactly 90. -/
lemma daysSince_staleRepo : daysSinceLastActivity 0 [staleRepo] = 90 := by
  unfold daysSinceLastActivity maxPushTime staleRepo docRepo msPerDay
  norm_num

/-- C4 witness: the formula instantiated at `now = 0` and a repository pushed
exactly 90 days earlier, whose recency multiplier floors at 0. -/
theorem c4_activity_formula_witness :
    ([staleRepo] : List GitHubRepo) ≠ [] ∧
    daysSinceLastActivity 0 [staleRepo] = 90 ∧
    (activityScore 0 [staleRepo] =
      min 10 (recentActivityVelocity 0 [staleRepo] : ℚ) * 3 *
        (if daysSinceLastActivity 0 [staleRepo] = 0 then 1
         else max 0 (1 - (daysSinceLastActivity 0 [staleRepo] : ℚ) / 90)) ∧
    (daysSinceLastActivity 0 [staleRepo] = 90 →
      recencyMultiplier 0 [staleRepo] = 0)) ∧
    recencyMultiplier 0 [staleRepo] = 0 :=
  ⟨by simp, daysSince_staleRepo,
    c4_activity_formula 0 [staleRepo] (by simp),
    (c4_activity_formula 0 [staleRepo] (by simp)).2 daysSince_staleRepo⟩

/-- The activity classification is HIGHLY_ACTIVE exactly on day gap at most 7
with velocity at least 5, MODERATELY_ACTIVE exactly when that fails but the
day gap is at most 30 with velocity at least 1, and INACTIVE exactly when
both fail. -/
lemma activityLevel_cases (now : Int) (repos : List GitHubRepo) :
    (activityLevel now repos = ActivityLevel.HIGHLY_ACTIVE ↔
      daysSinceLastActivity now repos ≤ 7 ∧
        5 ≤ recentActivityVelocity now repos) ∧
    (activityLevel now repos = ActivityLevel.MODERATELY_ACTIVE ↔
      ¬(daysSinceLastActivity now repos ≤ 7 ∧
          5 ≤ recentActivityVelocity now repos) ∧
        daysSinceLastActivity now repos ≤ 30 ∧
        1 ≤ recentActivityVelocity now repos) ∧
    (activityLevel now repos = ActivityLevel.INACTIVE ↔
      ¬(daysSinceLastActivity now repos ≤ 7 ∧
          5 ≤ recentActivityVelocity now repos) ∧
      ¬(daysSinceLastActivity now repos ≤ 30 ∧
          1 ≤ recentActivityVelocity now repos)) := by
  unfold activityLevel
  by_cases h1 : daysSinceLastActivity now repos ≤ 7 ∧
      5 ≤ recentActivityVelocity now repos
  · simp [h1]
  · by_cases h2 : daysSinceLastActivity now repos ≤ 30 ∧
        1 ≤ recentActivityVelocity now repos
    · simp [h1, h2]
    · simp [h1, h2]

/-- C5: for a non-empty repository list the day gap is the floored whole-day
difference between `now` and the most recent push timestamp across all
repositories (forks included), and the activity level is classified by the
documented thresholds on day gap and velocity. -/
theorem c5_daygap_and_level (now : Int) (repos : List GitHubRepo)
    (h : repos ≠ []) :
    (∃ t, t ∈ repos.map (fun r => r.pushed_at) ∧
      (∀ s ∈ repos.map (fun r => r.pushed_at), s ≤ t) ∧
      daysSinceLastActivity now repos = ⌊((now - t : Int) : ℚ) / 86400000⌋) ∧
    (activityLevel now repos = ActivityLevel.HIGHLY_ACTIVE ↔
      daysSinceLastActivity now repos ≤ 7 ∧
        5 ≤ recentActivityVelocity now repos) ∧
    (activityLevel now repos = ActivityLevel.MODERATELY_ACTIVE ↔
      ¬(daysSinceLastActivity now repos ≤ 7 ∧
          5 ≤ recentActivityVelocity now repos) ∧
        daysSinceLastActivity now repos ≤ 30 ∧
        1 ≤ recentActivityVelocity now repos) ∧
    (activityLevel now repos = ActivityLevel.INACTIVE ↔
      ¬(daysSinceLastActivity now repos ≤ 7 ∧
          5 ≤ recentActivityVelocity now repos) ∧
      ¬(daysSinceLastActivity now repos ≤ 30 ∧
          1 ≤ recentActivityVelocity now repos)) := by
  obtain ⟨hc1, hc2, hc3⟩ := activityLevel_cases now repos
  refine ⟨⟨maxPushTime repos, maxPushTime_mem repos h, ?_, ?_⟩, hc1, hc2, hc3⟩
  · intro s hs
    obtain ⟨r, hr, hrs⟩ := List.mem_map.mp hs
    exact hrs ▸ le_maxPushTime repos r hr
  · unfold daysSinceLastActivity msPerDay
    rw [if_pos (List.length_pos.mpr h)]
    norm_num

/-- C5 witness: the characterisation instantiated at `now = 0` and the single
repository pushed at the epoch, which is classified MODERATELY_ACTIVE. -/
theorem c5_daygap_and_level_witness :
    ([docRepo] : List GitHubRepo) ≠ [] ∧
    ((∃ t, t ∈ [docRepo].map (fun r => r.pushed_at) ∧
      (∀ s ∈ [docRepo].map (fun r => r.pushed_at), s ≤ t) ∧
      daysSinceLastActivity 0 [docRepo] = ⌊((0 - t : Int) : ℚ) / 86400000⌋) ∧
    (activityLevel 0 [docRepo] = ActivityLevel.HIGHLY_ACTIVE ↔
      daysSinceLastActivity 0 [docRepo] ≤ 7 ∧
        5 ≤ recentActivityVelocity 0 [docRepo]) ∧
    (activityLevel 0 [docRepo] = ActivityLevel.MODERATELY_ACTIVE ↔
      ¬(daysSinceLastActivity 0 [docRepo] ≤ 7 ∧
          5 ≤ recentActivityVelocity 0 [docRepo]) ∧
        daysSinceLastActivity 0 [docRepo] ≤ 30 ∧
        1 ≤ recentActivityVelocity 0 [docRepo]) ∧
    (activityLevel 0 [docRepo] = ActivityLevel.INACTIVE ↔
      ¬(daysSinceLastActivity 0 [docRepo] ≤ 7 ∧
          5 ≤ recentActivityVelocity 0 [docRepo]) ∧
      ¬(daysSinceLastActivity 0 [docRepo] ≤ 30 ∧
          1 ≤ recentActivityVelocity 0 [docRepo]))) :=
  ⟨by simp, c5_daygap_and_level 0 [docRepo] (by simp)⟩

/-- C6: the unrounded diversity score is a star bonus
`min(5, 5 * log10(totalStars + 1) / 2)` plus a language bonus
`min(10, 10 * distinctLanguages / 4)`; zero total stars give star bonus 0,
exactly three distinct languages give language bonus `15/2`, and four or more
distinct languages saturate the language bonus at 10. -/
theorem c6_diversity_formula (repos : List GitHubRepo) :
    diversityScore repos =
      min 5 (5 * Real.logb 10 ((totalStars repos : ℝ) + 1) / 2) +
        min 10 (10 * (languagesCount repos : ℝ) / 4) ∧
    (totalStars repos = 0 → starBonus repos = 0) ∧
    (languagesCount repos = 3 → languageBonus repos = 15 / 2) ∧
    (4 ≤ languagesCount repos → languageBonus repos = 10) := by
  refine ⟨?_, ?_, ?_, ?_⟩
  · unfold diversityScore starBonus languageBonus
    have h1 : Real.logb 10 ((totalStars repos : ℝ) + 1) / 2 * 5 =
        5 * Real.logb 10 ((totalStars repos : ℝ) + 1) / 2 := by ring
    have h2 : ((min 10 ((languagesCount repos : ℚ) / 4 * 10) : ℚ) : ℝ) =
        min 10 (10 * (languagesCount repos : ℝ) / 4) := by
      push_cast
      congr 1
      ring
    rw [h1, h2]
  · intro h
    unfold starBonus
    rw [h]
    norm_num [Real.logb_one]
  · intro h
    unfold languageBonus
    rw [h]
    norm_num
  · intro h
    unfold languageBonus
    have hq : (4 : ℚ) ≤ (languagesCount repos : ℚ) := by exact_mod_cast h
    rw [min_eq_left (by linarith)]

/-- Four original repositories with four distinct languages, no stars. -/
def fourLangRepos : List GitHubRepo :=
  [{ docRepo with language := "Go" },
   { docRepo with language := "Rust" },
   { docRepo with language := "C" },
   { docRepo with language := "Lean" }]

/-- C6 witness: the formula applied to the one-language no-star input and to
a four-language input that saturates the language bonus. -/
theorem c6_diversity_formula_witness :
    totalStars [docRepo] = 0 ∧
    starBonus [docRepo] = 0 ∧
    4 ≤ languagesCount fourLangRepos ∧
    languageBonus fourLangRepos = 10 ∧
    diversityScore [docRepo] =
      min 5 (5 * Real.logb 10 ((totalStars [docRepo] : ℝ) + 1) / 2) +
        min 10 (10 * (languagesCount [docRepo] : ℝ) / 4) :=
  ⟨by decide, (c6_diversity_formula [docRepo]).2.1 (by decide), by decide,
    (c6_diversity_formula fourLangRepos).2.2.2 (by decide),
    (c6_diversity_formula [docRepo]).1⟩

/-- C7: the unrounded documentation score is
`15 * (longDescriptionCount + featureFlagCount) / (2 * originalCount)`, with
value 0 when there are no original repositories; an absent description counts
as length 0 (the embedding reads it as the empty string, mirroring the
source's `(r.description?.length || 0)`). -/
theorem c7_documentation_formula (repos : List GitHubRepo) :
    documentationScore repos =
      if (originalRepos repos).length = 0 then 0
      else
        15 * ((reposWithDesc repos : ℚ) + (featureUsage repos : ℚ)) /
          (2 * ((originalRepos repos).length : ℚ)) := by
  unfold documentationScore docRatio
  by_cases h : 0 < (originalRepos repos).length
  · rw [if_pos h, if_neg (by omega)]
    have hne : ((originalRepos repos).length : ℚ) ≠ 0 := by
      exact_mod_cast Nat.pos_iff_ne_zero.mp h
    field_simp
    ring
  · rw [if_neg h, if_pos (by omega)]
    norm_num

/-- Star bonus of `fourLangRepos` is zero (no stars anywhere). -/
lemma starBonus_fourLang : starBonus fourLangRepos = 0 := by
  have h : totalStars fourLangRepos = 0 := by decide
  unfold starBonus
  rw [h]
  norm_num [Real.logb_one]

/-- Language bonus of `fourLangRepos` is ten (four distinct languages). -/
lemma languageBonus_fourLang : languageBonus fourLangRepos = 10 := by
  have h : languagesCount fourLangRepos = 4 := by decide
  unfold languageBonus
  rw [h]
  norm_num

/-- C8: in every returned record `repoCountScore` equals the rounded
originality score (and hence the `originalityScore` field), and `starImpact`
equals the rounded star bonus alone; at a four-language no-star input the
`starImpact` field differs from the rounded full diversity score, so the
alias is to the star-bonus component, not to diversity. -/
theorem c8_output_aliases :
    (∀ (now : Int) (profile : GitHubProfile) (repos : List GitHubRepo),
      (calculateHireabilityScore now profile repos).repoCountScore =
        round (originalityScore repos) ∧
      (calculateHireabilityScore now profile repos).repoCountScore =
        (calculateHireabilityScore now profile repos).originalityScore ∧
      (calculateHireabilityScore now profile repos).starImpact =
        round (starBonus repos)) ∧
    (calculateHireabilityScore 0 epochProfile fourLangRepos).starImpact ≠
      round (diversityScore fourLangRepos) := by
  constructor
  · exact fun now profile repos => ⟨rfl, rfl, rfl⟩
  · show round (starBonus fourLangRepos) ≠ round (diversityScore fourLangRepos)
    have h2 : diversityScore fourLangRepos = 10 := by
      unfold diversityScore
      rw [starBonus_fourLang, languageBonus_fourLang]
      norm_num
    rw [starBonus_fourLang, h2, round_zero]
    norm_num [round_eq]

/-- C9: with the captured `now` fixed, the engine is deterministic — equal
profiles and equal repository lists yield an identical output record in
every field. -/
theorem c9_deterministic (now : Int) (p₁ p₂ : GitHubProfile)
    (r₁ r₂ : List GitHubRepo) (hp : p₁ = p₂) (hr : r₁ = r₂) :
    calculateHireabilityScore now p₁ r₁ = calculateHireabilityScore now p₂ r₂ := by
  rw [hp, hr]

/-- C9 witness: determinism instantiated at a concrete call. -/
theorem c9_deterministic_witness :
    epochProfile = epochProfile ∧ ([docRepo] : List GitHubRepo) = [docRepo] ∧
    calculateHireabilityScore 0 epochProfile [docRepo] =
      calculateHireabilityScore 0 epochProfile [docRepo] :=
  ⟨rfl, rfl,
    c9_deterministic 0 epochProfile epochProfile [docRepo] [docRepo] rfl rfl⟩

/-- C10: when the newest push lies at least one whole day after the captured
`now`, the returned day gap is the floored signed day difference — hence
negative, with no clamping at zero — and exactly this signed value feeds the
`1 - dayGap/90` recency-multiplier expression. -/
theorem c10_future_push_negative_gap (now : Int) (repos : List GitHubRepo)
    (h : repos ≠ []) (hfuture : now + 86400000 ≤ maxPushTime repos) :
    daysSinceLastActivity now repos =
      ⌊((now - maxPushTime repos : Int) : ℚ) / 86400000⌋ ∧
    daysSinceLastActivity now repos < 0 ∧
    recencyMultiplier now repos =
      max 0 (1 - (daysSinceLastActivity now repos : ℚ) / 90) := by
  have heq : daysSinceLastActivity now repos =
      ⌊((now - maxPushTime repos : Int) : ℚ) / 86400000⌋ := by
    unfold daysSinceLastActivity msPerDay
    rw [if_pos (List.length_pos.mpr h)]
    norm_num
  have hneg : daysSinceLastActivity now repos < 0 := by
    rw [heq]
    have hle : ((now - maxPushTime repos : Int) : ℚ) ≤ -86400000 := by
      have hz : now - maxPushTime repos ≤ -86400000 := by omega
      exact_mod_cast hz
    have hq : ((now - maxPushTime repos : Int) : ℚ) / 86400000 ≤ -1 := by
      rw [div_le_iff₀ (by norm_num : (0:ℚ) < 86400000)]
      linarith
    have hmono := Int.floor_le_floor hq
    have hone : ⌊(-1 : ℚ)⌋ = -1 := by norm_num
    omega
  refine ⟨heq, hneg, ?_⟩
  unfold recencyMultiplier
  rw [if_neg (by omega)]

/-- A single repository whose last push lies two whole days after the
captured `now = 0`. -/
def futureRepo : GitHubRepo :=
  { docRepo with pushed_at := 172800000 }

/-- C10 witness: the unclamped negative day gap at a repository pushed two
days in the future. -/
theorem c10_future_push_negative_gap_witness :
    ([futureRepo] : List GitHubRepo) ≠ [] ∧
    (0 : Int) + 86400000 ≤ maxPushTime [futureRepo] ∧
    (daysSinceLastActivity 0 [futureRepo] =
      ⌊((0 - maxPushTime [futureRepo] : Int) : ℚ) / 86400000⌋ ∧
    daysSinceLastActivity 0 [futureRepo] < 0 ∧
    recencyMultiplier 0 [futureRepo] =
      max 0 (1 - (daysSinceLastActivity 0 [futureRepo] : ℚ) / 90)) :=
  ⟨by simp, by decide,
    c10_future_push_negative_gap 0 [futureRepo] (by simp) (by decide)⟩
